import Mathlib

/-!
Verification of the CS35L41 baremetal system-test harness
(`src/cs35l41/baremetal/main.c`) against its specification.

The harness is a single unbounded loop: each iteration services the DUT
driver, samples the push-button edge, dispatches on the state variable
`app_audio_state` when the edge flag `bsp_pb_pressed` is set, clears the
edge flag and sleeps.  We embed the loop body as a pure function from the
loop-owned state (`app_audio_state`, `bsp_pb_pressed`) and the values the
BSP supplies during the iteration to the new loop state together with the
ordered trace of BSP/DUT driver calls issued.
-/

namespace CS35L41

/-- The `APP_STATE_*` literals of `main.c` (lines 32-43). -/
def APP_STATE_CAL_PDN : Nat := 0

def APP_STATE_CAL_BOOTED : Nat := 1

def APP_STATE_CAL_PUP : Nat := 2

def APP_STATE_CALIBRATED : Nat := 3

def APP_STATE_PDN : Nat := 4

def APP_STATE_BOOTED : Nat := 5

def APP_STATE_PUP : Nat := 6

def APP_STATE_MUTE : Nat := 7

def APP_STATE_UNMUTE : Nat := 8

def APP_STATE_HIBERNATE : Nat := 9

def APP_STATE_WAKE : Nat := 10

def APP_STATE_CHECK_PROCESSING : Nat := 11

/-- Modelled from the spec (§6): the audio reference identifiers
`BSP_PLAY_SILENCE` and `BSP_PLAY_STEREO_1KHZ_20DBFS` passed to
`bsp_audio_play_record`; their header `hw_0_bsp.h` is not in scope, the
spec gives `reference_id ∈ \x7bSILENCE, STEREO_1KHZ_20DBFS\x7d`. -/
inductive PlayRef where
  | silence
  | stereo_1khz_20dbfs
  deriving DecidableEq, Repr

/-- Modelled from the spec (§6/§3): the constant `BSP_DUT_ID_LEFT` of
`hw_0_bsp.h` (not in scope).  `main.c` only ever compares the queried
`uint8_t dut_id` against this constant, so its concrete value is
immaterial; we fix it to 0. -/
def BSP_DUT_ID_LEFT : Nat := 0

/-- Modelled from the spec (§7): the OK status constant `BSP_STATUS_OK`
of `hw_0_bsp.h` (not in scope).  `app_bsp_callback` only ever compares the
incoming status against it, so its concrete value is immaterial; we fix it
to 0. -/
def BSP_STATUS_OK : Nat := 0

/-- One BSP/DUT driver call issued by the loop body, recorded in order. -/
inductive Action where
  | dut_process
  | was_pb_pressed
  | audio_stop
  | audio_play_record (ref : PlayRef)
  | dut_reset
  | dut_boot (cal_boot : Bool)
  | dut_power_up
  | dut_power_down
  | dut_calibrate
  | dut_get_id
  | dut_set_dig_gain (gain_db : Int)
  | dut_is_processing
  | dut_mute (enable : Bool)
  | dut_hibernate
  | dut_wake
  | sleep
  deriving DecidableEq, Repr

/-- The values the BSP writes through the out-parameters of
`bsp_dut_get_id` and `bsp_dut_is_processing` during one iteration.
`is_processing = none` models a `bsp_dut_is_processing` call that does not
write its out-parameter, in which case the local variable of `main.c`
(line 162) keeps its initial value `false`. -/
structure BspEnv where
  dut_id : Nat
  is_processing : Option Bool
  deriving DecidableEq, Repr

/-- The two loop-owned variables of `main.c` (lines 48-49):
`app_audio_state` (a `uint8_t`, modelled as `Nat`) and the edge flag
`bsp_pb_pressed`. -/
structure LoopState where
  app_audio_state : Nat
  bsp_pb_pressed : Bool
  deriving DecidableEq, Repr

/-- The initial values of the loop-owned variables (`main.c` lines 48-49). -/
def initState : LoopState :=
  { app_audio_state := APP_STATE_CAL_PDN, bsp_pb_pressed := false }

/-- The `switch (app_audio_state)` dispatch of `main.c` (lines 93-214):
given the current `app_audio_state`, the current edge flag and the values
the BSP supplies, it returns the new `app_audio_state` together with the
ordered list of driver calls issued by the selected case. -/
def dispatch (st : Nat) (pressed : Bool) (env : BspEnv) : Nat × List Action :=
  if st = APP_STATE_CAL_PDN then
    if pressed then
      (APP_STATE_CAL_BOOTED,
       [.audio_stop, .audio_play_record .silence, .dut_reset, .dut_boot true])
    else (st, [])
  else if st = APP_STATE_CAL_BOOTED then
    if pressed then (APP_STATE_CAL_PUP, [.dut_power_up]) else (st, [])
  else if st = APP_STATE_CAL_PUP then
    if pressed then (APP_STATE_CALIBRATED, [.dut_calibrate]) else (st, [])
  else if st = APP_STATE_CALIBRATED then
    if pressed then (APP_STATE_PDN, [.dut_power_down]) else (st, [])
  else if st = APP_STATE_PDN then
    if pressed then
      (APP_STATE_BOOTED,
       [.audio_stop, .audio_play_record .stereo_1khz_20dbfs, .dut_reset,
        .dut_boot false, .dut_get_id,
        .dut_set_dig_gain (if env.dut_id = BSP_DUT_ID_LEFT then -6 else -10)])
    else (st, [])
  else if st = APP_STATE_BOOTED then
    if pressed then (APP_STATE_CHECK_PROCESSING, [.dut_power_up]) else (st, [])
  else if st = APP_STATE_CHECK_PROCESSING then
    if pressed then
      (if env.is_processing.getD false then APP_STATE_PUP
       else APP_STATE_CHECK_PROCESSING,
       [.dut_is_processing])
    else (st, [])
  else if st = APP_STATE_PUP then
    if pressed then (APP_STATE_MUTE, [.dut_mute true]) else (st, [])
  else if st = APP_STATE_MUTE then
    if pressed then (APP_STATE_UNMUTE, [.dut_mute false]) else (st, [])
  else if st = APP_STATE_UNMUTE then
    if pressed then (APP_STATE_HIBERNATE, [.dut_power_down]) else (st, [])
  else if st = APP_STATE_HIBERNATE then
    if pressed then (APP_STATE_WAKE, [.dut_hibernate]) else (st, [])
  else if st = APP_STATE_WAKE then
    if pressed then (APP_STATE_CAL_PDN, [.dut_wake]) else (st, [])
  else (st, [])

/-- The BSP inputs sampled during one loop iteration: the result of
`bsp_was_pb_pressed(BSP_PB_ID_USER)` and the out-parameter values of the
two query calls. -/
structure IterInput where
  pb_pressed : Bool
  env : BspEnv
  deriving DecidableEq, Repr

/-- One iteration of the `while (1)` loop of `main.c` (lines 85-219):
`bsp_dut_process()`, button sampling (latching `bsp_pb_pressed`), the
state dispatch, the unconditional `bsp_pb_pressed = false` (line 216) and
`bsp_sleep()`.  Returns the new loop state and the ordered call trace of
the iteration. -/
def loop_iter (s : LoopState) (inp : IterInput) : LoopState × List Action :=
  let pressed := s.bsp_pb_pressed || inp.pb_pressed
  let r := dispatch s.app_audio_state pressed inp.env
  ({ app_audio_state := r.1, bsp_pb_pressed := false },
   .dut_process :: .was_pb_pressed :: r.2 ++ [.sleep])

/-- Run the loop body once per element of `inps`, returning the final
loop state. -/
def run (s : LoopState) (inps : List IterInput) : LoopState :=
  inps.foldl (fun acc inp => (loop_iter acc inp).1) s

/-- The loop states reachable from the initial values of `main.c` by
iterating the loop body. -/
inductive Reachable : LoopState → Prop where
  | init : Reachable initState
  | step {s : LoopState} (h : Reachable s) (inp : IterInput) :
      Reachable (loop_iter s inp).1

/-- The `app_bsp_callback` outcome: either the process terminated via
`exit` with the given code, or the callback returned normally. -/
inductive CallbackOutcome where
  | exited (code : Nat)
  | returned
  deriving DecidableEq, Repr

/-- `app_bsp_callback` of `main.c` (lines 58-66): exits with status 1 on
any non-OK status, otherwise returns; it touches no other state. -/
def app_bsp_callback (status : Nat) (_arg : Unit) : CallbackOutcome :=
  if status ≠ BSP_STATUS_OK then .exited 1 else .returned

/-- Refinement reference, written from the spec's words (§4 state
transition table, "Next state" column): the successor of each of the
twelve states. -/
def specNext (st : Nat) : Nat :=
  if st = APP_STATE_CAL_PDN then APP_STATE_CAL_BOOTED
  else if st = APP_STATE_CAL_BOOTED then APP_STATE_CAL_PUP
  else if st = APP_STATE_CAL_PUP then APP_STATE_CALIBRATED
  else if st = APP_STATE_CALIBRATED then APP_STATE_PDN
  else if st = APP_STATE_PDN then APP_STATE_BOOTED
  else if st = APP_STATE_BOOTED then APP_STATE_CHECK_PROCESSING
  else if st = APP_STATE_CHECK_PROCESSING then APP_STATE_PUP
  else if st = APP_STATE_PUP then APP_STATE_MUTE
  else if st = APP_STATE_MUTE then APP_STATE_UNMUTE
  else if st = APP_STATE_UNMUTE then APP_STATE_HIBERNATE
  else if st = APP_STATE_HIBERNATE then APP_STATE_WAKE
  else if st = APP_STATE_WAKE then APP_STATE_CAL_PDN
  else st

/-- Refinement reference, written from the spec's words (§4 state
transition table, "Action(s) performed" column), for the rows other than
`CHECK_PROCESSING`. -/
def specActions (st : Nat) (env : BspEnv) : List Action :=
  if st = APP_STATE_CAL_PDN then
    [.audio_stop, .audio_play_record .silence, .dut_reset, .dut_boot true]
  else if st = APP_STATE_CAL_BOOTED then [.dut_power_up]
  else if st = APP_STATE_CAL_PUP then [.dut_calibrate]
  else if st = APP_STATE_CALIBRATED then [.dut_power_down]
  else if st = APP_STATE_PDN then
    [.audio_stop, .audio_play_record .stereo_1khz_20dbfs, .dut_reset,
     .dut_boot false, .dut_get_id,
     .dut_set_dig_gain (if env.dut_id = BSP_DUT_ID_LEFT then -6 else -10)]
  else if st = APP_STATE_BOOTED then [.dut_power_up]
  else if st = APP_STATE_PUP then [.dut_mute true]
  else if st = APP_STATE_MUTE then [.dut_mute false]
  else if st = APP_STATE_UNMUTE then [.dut_power_down]
  else if st = APP_STATE_HIBERNATE then [.dut_hibernate]
  else if st = APP_STATE_WAKE then [.dut_wake]
  else []

/-- An iteration input in which the button edge is reported, the device
identity query writes `id`, and the processing-status query writes
`true`. -/
def acceptedPress (id : Nat) : IterInput :=
  { pb_pressed := true, env := { dut_id := id, is_processing := some true } }

/-- Claim C1: for every state except `CHECK_PROCESSING`, with the edge
flag true the dispatch performs exactly the transition of the §4 table
(a genuine change of state) and issues exactly the actions of that row;
with the edge flag false the state is unchanged and no driver call is
issued by the dispatch. -/
theorem c1_dispatch_matches_spec_table (st : Nat) (hlt : st < 12)
    (hne : st ≠ APP_STATE_CHECK_PROCESSING) (env : BspEnv) :
    dispatch st true env = (specNext st, specActions st env) ∧
      specNext st ≠ st ∧ dispatch st false env = (st, []) := by
  interval_cases st <;>
    first
      | exact absurd rfl hne
      | exact ⟨rfl, by decide, rfl⟩

/-- Witness for C1 at the concrete state `CAL_POWER_DOWN`. -/
theorem c1_witness :
    dispatch APP_STATE_CAL_PDN true ⟨0, none⟩ =
        (specNext APP_STATE_CAL_PDN, specActions APP_STATE_CAL_PDN ⟨0, none⟩) ∧
      specNext APP_STATE_CAL_PDN ≠ APP_STATE_CAL_PDN ∧
      dispatch APP_STATE_CAL_PDN false ⟨0, none⟩ = (APP_STATE_CAL_PDN, []) :=
  c1_dispatch_matches_spec_table APP_STATE_CAL_PDN (by decide) (by decide) _

/-- Counterexample to claim C2 as stated: starting from `CAL_POWER_DOWN`,
after exactly 11 accepted button presses (processing status true on the
check) the state variable is `WAKE`, not `CAL_POWER_DOWN`. -/
theorem c2_counterexample :
    (run initState (List.replicate 11 (acceptedPress 0))).app_audio_state =
        APP_STATE_WAKE ∧
      APP_STATE_WAKE ≠ APP_STATE_CAL_PDN := by
  decide

/-- Claim C2 (amended): starting from `CAL_POWER_DOWN`, exactly 12
accepted button presses (processing status true on the check) return the
state variable to `CAL_POWER_DOWN`, and no smaller positive number of
accepted presses does. -/
theorem c2_twelve_presses_complete_cycle (id : Nat) :
    (run initState (List.replicate 12 (acceptedPress id))).app_audio_state =
        APP_STATE_CAL_PDN ∧
      ∀ k, 0 < k → k < 12 →
        (run initState (List.replicate k (acceptedPress id))).app_audio_state ≠
          APP_STATE_CAL_PDN := by
  refine ⟨?_, ?_⟩
  · simp [run, loop_iter, dispatch, initState, acceptedPress, List.replicate,
      APP_STATE_CAL_PDN, APP_STATE_CAL_BOOTED, APP_STATE_CAL_PUP,
      APP_STATE_CALIBRATED, APP_STATE_PDN, APP_STATE_BOOTED, APP_STATE_PUP,
      APP_STATE_MUTE, APP_STATE_UNMUTE, APP_STATE_HIBERNATE, APP_STATE_WAKE,
      APP_STATE_CHECK_PROCESSING]
  · intro k hk0 hk12
    interval_cases k <;>
      simp [run, loop_iter, dispatch, initState, acceptedPress, List.replicate,
        APP_STATE_CAL_PDN, APP_STATE_CAL_BOOTED, APP_STATE_CAL_PUP,
        APP_STATE_CALIBRATED, APP_STATE_PDN, APP_STATE_BOOTED, APP_STATE_PUP,
        APP_STATE_MUTE, APP_STATE_UNMUTE, APP_STATE_HIBERNATE, APP_STATE_WAKE,
        APP_STATE_CHECK_PROCESSING]

/-- Witness for C2 (amended) at identity 0: 12 presses close the cycle
and 11 do not. -/
theorem c2_witness :
    (run initState (List.replicate 12 (acceptedPress 0))).app_audio_state =
        APP_STATE_CAL_PDN ∧
      (run initState (List.replicate 11 (acceptedPress 0))).app_audio_state ≠
        APP_STATE_CAL_PDN :=
  ⟨(c2_twelve_presses_complete_cycle 0).1,
   (c2_twelve_presses_complete_cycle 0).2 11 (by decide) (by decide)⟩

/-- Claim C3: in `CHECK_PROCESSING` with the edge flag true, if the
processing-status query writes `false` the iteration leaves the state in
`CHECK_PROCESSING` with the edge flag cleared; if it writes `true` the
state becomes `POWERED_UP` (with the edge flag cleared). -/
theorem c3_check_processing_gate (id : Nat) :
    (loop_iter ⟨APP_STATE_CHECK_PROCESSING, false⟩
        ⟨true, ⟨id, some false⟩⟩).1 =
      ⟨APP_STATE_CHECK_PROCESSING, false⟩ ∧
    (loop_iter ⟨APP_STATE_CHECK_PROCESSING, false⟩
        ⟨true, ⟨id, some true⟩⟩).1 =
      ⟨APP_STATE_PUP, false⟩ :=
  ⟨rfl, rfl⟩

/-- Claim C4: at the `POWERED_DOWN` transition with the edge flag true,
the actions occur in the order stop audio, play the stereo 1kHz tone,
reset, boot in normal mode, query identity, set digital gain — with gain
−6 when the identity is `BSP_DUT_ID_LEFT` and −10 otherwise — and the
next state is `BOOTED`. -/
theorem c4_powered_down_transition (env : BspEnv) :
    (env.dut_id = BSP_DUT_ID_LEFT →
      dispatch APP_STATE_PDN true env =
        (APP_STATE_BOOTED,
         [.audio_stop, .audio_play_record .stereo_1khz_20dbfs, .dut_reset,
          .dut_boot false, .dut_get_id, .dut_set_dig_gain (-6)])) ∧
    (env.dut_id ≠ BSP_DUT_ID_LEFT →
      dispatch APP_STATE_PDN true env =
        (APP_STATE_BOOTED,
         [.audio_stop, .audio_play_record .stereo_1khz_20dbfs, .dut_reset,
          .dut_boot false, .dut_get_id, .dut_set_dig_gain (-10)])) := by
  constructor <;> intro h <;> simp [dispatch, APP_STATE_PDN, APP_STATE_CAL_PDN,
    APP_STATE_CAL_BOOTED, APP_STATE_CAL_PUP, APP_STATE_CALIBRATED, h]

/-- Witness for C4 at the left identity and at a non-left identity. -/
theorem c4_witness :
    dispatch APP_STATE_PDN true ⟨BSP_DUT_ID_LEFT, none⟩ =
      (APP_STATE_BOOTED,
       [.audio_stop, .audio_play_record .stereo_1khz_20dbfs, .dut_reset,
        .dut_boot false, .dut_get_id, .dut_set_dig_gain (-6)]) ∧
    dispatch APP_STATE_PDN true ⟨1, none⟩ =
      (APP_STATE_BOOTED,
       [.audio_stop, .audio_play_record .stereo_1khz_20dbfs, .dut_reset,
        .dut_boot false, .dut_get_id, .dut_set_dig_gain (-10)]) :=
  ⟨(c4_powered_down_transition _).1 rfl,
   (c4_powered_down_transition _).2 (by decide)⟩

/-- Claim C5: whatever the loop state and the BSP inputs of the
iteration, the edge flag `bsp_pb_pressed` is false when the iteration
completes, so a press is visible to at most one dispatch pass. -/
theorem c5_edge_flag_cleared (s : LoopState) (inp : IterInput) :
    (loop_iter s inp).1.bsp_pb_pressed = false :=
  rfl

/-- Helper: the dispatch maps defined states to defined states. -/
theorem dispatch_fst_lt (st : Nat) (h : st < 12) (p : Bool) (env : BspEnv) :
    (dispatch st p env).1 < 12 := by
  interval_cases st <;> cases p <;>
    cases h2 : env.is_processing.getD false <;>
      simp [dispatch, h2, APP_STATE_CAL_PDN, APP_STATE_CAL_BOOTED,
        APP_STATE_CAL_PUP, APP_STATE_CALIBRATED, APP_STATE_PDN,
        APP_STATE_BOOTED, APP_STATE_PUP, APP_STATE_MUTE, APP_STATE_UNMUTE,
        APP_STATE_HIBERNATE, APP_STATE_WAKE, APP_STATE_CHECK_PROCESSING]

/-- Helper: one dispatch either holds the state or moves it to the
successor of the §4 table. -/
theorem dispatch_fst_step (st : Nat) (h : st < 12) (p : Bool) (env : BspEnv) :
    (dispatch st p env).1 = st ∨ (dispatch st p env).1 = specNext st := by
  interval_cases st <;> cases p <;>
    cases h2 : env.is_processing.getD false <;>
      simp [dispatch, specNext, h2, APP_STATE_CAL_PDN, APP_STATE_CAL_BOOTED,
        APP_STATE_CAL_PUP, APP_STATE_CALIBRATED, APP_STATE_PDN,
        APP_STATE_BOOTED, APP_STATE_PUP, APP_STATE_MUTE, APP_STATE_UNMUTE,
        APP_STATE_HIBERNATE, APP_STATE_WAKE, APP_STATE_CHECK_PROCESSING]

/-- Helper: the dispatch never issues the `bsp_dut_process` call itself. -/
theorem dispatch_snd_count_dut_process (st : Nat) (p : Bool) (env : BspEnv) :
    ((dispatch st p env).2).count Action.dut_process = 0 := by
  by_cases hlt : st < 12
  · interval_cases st <;> cases p <;>
      cases h2 : env.is_processing.getD false <;>
        simp [dispatch, h2, APP_STATE_CAL_PDN, APP_STATE_CAL_BOOTED,
          APP_STATE_CAL_PUP, APP_STATE_CALIBRATED, APP_STATE_PDN,
          APP_STATE_BOOTED, APP_STATE_PUP, APP_STATE_MUTE, APP_STATE_UNMUTE,
          APP_STATE_HIBERNATE, APP_STATE_WAKE, APP_STATE_CHECK_PROCESSING]
  · obtain ⟨k, rfl⟩ : ∃ k, st = k + 12 := ⟨st - 12, by omega⟩
    rfl

/-- Claim C6: every loop state reachable from the initial values keeps
`app_audio_state` in the set of twelve defined values, and every step
from a reachable state either holds the state (no press, or the
`CHECK_PROCESSING` hold) or moves it to the successor given by the §4
sequence table — never skipping or reversing. -/
theorem c6_reachable_states_defined (s : LoopState) (h : Reachable s) :
    s.app_audio_state ∈
        [APP_STATE_CAL_PDN, APP_STATE_CAL_BOOTED, APP_STATE_CAL_PUP,
         APP_STATE_CALIBRATED, APP_STATE_PDN, APP_STATE_BOOTED,
         APP_STATE_PUP, APP_STATE_MUTE, APP_STATE_UNMUTE,
         APP_STATE_HIBERNATE, APP_STATE_WAKE, APP_STATE_CHECK_PROCESSING] ∧
      ∀ inp, (loop_iter s inp).1.app_audio_state = s.app_audio_state ∨
        (loop_iter s inp).1.app_audio_state = specNext s.app_audio_state := by
  have hlt : s.app_audio_state < 12 := by
    induction h with
    | init => decide
    | step h inp ih => exact dispatch_fst_lt _ ih _ _
  constructor
  · simp [APP_STATE_CAL_PDN, APP_STATE_CAL_BOOTED, APP_STATE_CAL_PUP,
      APP_STATE_CALIBRATED, APP_STATE_PDN, APP_STATE_BOOTED, APP_STATE_PUP,
      APP_STATE_MUTE, APP_STATE_UNMUTE, APP_STATE_HIBERNATE, APP_STATE_WAKE,
      APP_STATE_CHECK_PROCESSING]
    omega
  · exact fun inp => dispatch_fst_step _ hlt _ _

/-- Witness for C6 at the initial loop state and a concrete input. -/
theorem c6_witness :
    initState.app_audio_state ∈
        [APP_STATE_CAL_PDN, APP_STATE_CAL_BOOTED, APP_STATE_CAL_PUP,
         APP_STATE_CALIBRATED, APP_STATE_PDN, APP_STATE_BOOTED,
         APP_STATE_PUP, APP_STATE_MUTE, APP_STATE_UNMUTE,
         APP_STATE_HIBERNATE, APP_STATE_WAKE, APP_STATE_CHECK_PROCESSING] ∧
      ((loop_iter initState ⟨true, ⟨0, none⟩⟩).1.app_audio_state =
          initState.app_audio_state ∨
        (loop_iter initState ⟨true, ⟨0, none⟩⟩).1.app_audio_state =
          specNext initState.app_audio_state) :=
  ⟨(c6_reachable_states_defined initState Reachable.init).1,
   (c6_reachable_states_defined initState Reachable.init).2 ⟨true, ⟨0, none⟩⟩⟩

/-- Claim C7: the registered fatal callback exits the process with
status 1 on any non-OK status code and returns normally on the OK
status code. -/
theorem c7_fatal_callback (status : Nat) :
    (status ≠ BSP_STATUS_OK →
        app_bsp_callback status () = CallbackOutcome.exited 1) ∧
      app_bsp_callback BSP_STATUS_OK () = CallbackOutcome.returned := by
  constructor
  · intro h
    simp [app_bsp_callback, h]
  · simp [app_bsp_callback]

/-- Witness for C7 at the non-OK status 1 and at the OK status. -/
theorem c7_witness :
    app_bsp_callback 1 () = CallbackOutcome.exited 1 ∧
      app_bsp_callback BSP_STATUS_OK () = CallbackOutcome.returned :=
  ⟨(c7_fatal_callback 1).1 (by decide), (c7_fatal_callback 1).2⟩

/-- Claim C8: in every loop iteration the trace starts with exactly one
`bsp_dut_process` call, issued before button sampling and before the
dispatch, whatever the loop state and BSP inputs. -/
theorem c8_dut_process_first (s : LoopState) (inp : IterInput) :
    (loop_iter s inp).2 =
        Action.dut_process :: Action.was_pb_pressed ::
          (dispatch s.app_audio_state (s.bsp_pb_pressed || inp.pb_pressed)
              inp.env).2 ++ [Action.sleep] ∧
      ((loop_iter s inp).2).count Action.dut_process = 1 ∧
      ((loop_iter s inp).2).head? = some Action.dut_process := by
  refine ⟨rfl, ?_, rfl⟩
  simp [loop_iter, List.count_cons, List.count_append,
    dispatch_snd_count_dut_process]

/-- Claim C9: the dispatch is total over the state variable: for any
value outside the twelve defined states it issues no driver call and
leaves the state unchanged, and the loop then never changes the state
again no matter what inputs arrive. -/
theorem c9_undefined_states_stuck (st : Nat) (h : 12 ≤ st) :
    (∀ p env, dispatch st p env = (st, [])) ∧
      ∀ b inps, (run ⟨st, b⟩ inps).app_audio_state = st := by
  have hd : ∀ p env, dispatch st p env = (st, []) := by
    obtain ⟨k, hk⟩ : ∃ k, st = k + 12 := ⟨st - 12, by omega⟩
    subst hk
    intro p env
    rfl
  refine ⟨hd, ?_⟩
  intro b inps
  induction inps generalizing b with
  | nil => rfl
  | cons i rest ih =>
      have h1 : (loop_iter ⟨st, b⟩ i).1 = ⟨st, false⟩ := by
        simp [loop_iter, hd]
      show (run (loop_iter ⟨st, b⟩ i).1 rest).app_audio_state = st
      rw [h1]
      exact ih false

/-- Witness for C9 at the first undefined state value 12. -/
theorem c9_witness :
    dispatch 12 true ⟨0, none⟩ = (12, []) ∧
      (run ⟨12, false⟩ [⟨true, ⟨0, none⟩⟩]).app_audio_state = 12 :=
  ⟨(c9_undefined_states_stuck 12 (by decide)).1 true ⟨0, none⟩,
   (c9_undefined_states_stuck 12 (by decide)).2 false [⟨true, ⟨0, none⟩⟩]⟩

/-- Claim C10: in `CHECK_PROCESSING` with the edge flag true the
processing-status query is the only driver call the dispatch issues,
whatever the query writes; and when the query writes nothing, the local
status variable keeps its initial value `false` and the state stays in
`CHECK_PROCESSING`. -/
theorem c10_check_processing_frame (env : BspEnv) :
    (dispatch APP_STATE_CHECK_PROCESSING true env).2 =
        [Action.dut_is_processing] ∧
      (env.is_processing = none →
        dispatch APP_STATE_CHECK_PROCESSING true env =
          (APP_STATE_CHECK_PROCESSING, [Action.dut_is_processing])) := by
  constructor
  · rfl
  · intro h
    simp [dispatch, h, APP_STATE_CAL_PDN, APP_STATE_CAL_BOOTED,
      APP_STATE_CAL_PUP, APP_STATE_CALIBRATED, APP_STATE_PDN,
      APP_STATE_BOOTED, APP_STATE_PUP, APP_STATE_MUTE, APP_STATE_UNMUTE,
      APP_STATE_HIBERNATE, APP_STATE_WAKE, APP_STATE_CHECK_PROCESSING]

/-- Witness for C10 with a query that does not write its out-parameter. -/
theorem c10_witness :
    (dispatch APP_STATE_CHECK_PROCESSING true ⟨0, none⟩).2 =
        [Action.dut_is_processing] ∧
      dispatch APP_STATE_CHECK_PROCESSING true ⟨0, none⟩ =
        (APP_STATE_CHECK_PROCESSING, [Action.dut_is_processing]) :=
  ⟨(c10_check_processing_frame ⟨0, none⟩).1,
   (c10_check_processing_frame ⟨0, none⟩).2 rfl⟩

end CS35L41
